import Mathlib

/-!
Verification of the invite-redemption instruction of the ark_protocol
sortition program (src/programs/sortition/src/contexts/use_invite.rs).

The handler `use_governance_invite` is embedded as a pure function over a
context record holding the accounts that the Anchor runtime loads; machine
integers (u32 counters) are modelled as Nat with explicit reduction
modulo 2^32 at each addition. Errors abort the host transaction, so the
committed state on an error is the entry state; this is captured by
`commitState`.
-/

namespace ArkProtocol

/-- Modelled from the spec: account addresses ("identifiers") are opaque
32-byte public keys with a default (all-zero) sentinel value; we model them
as natural numbers with sentinel 0. The `Pubkey` type itself lives outside
this repository (in the ledger SDK). -/
abbrev Pubkey := Nat

/-- The default (all-zero) public key, `Pubkey::default()` in the source. -/
def pubkeyDefault : Pubkey := 0

/-- The u32 modulus: counters in the source are 32-bit unsigned integers. -/
def U32_MOD : Nat := 2 ^ 32

/-- Modelled from the spec: the `GovernancePool` account state
(src/programs/sortition/src/states/governance.rs is not under src/; the
spec gives its fields as `total_citizens : u32` and
`total_citizen_indices : u32`, and the handler accesses exactly these). -/
structure GovernancePool where
  total_citizens : Nat
  total_citizen_indices : Nat
deriving DecidableEq, Repr

/-- Modelled from the spec: the `GovernanceInvite` account state
(src/programs/sortition/src/states/invite.rs is not under src/; the spec
gives `governance_pool`, `is_used : bool`, `used_by : optional identifier`,
`expires_at : timestamp`, matching the handler's accesses). -/
structure GovernanceInvite where
  governance_pool : Pubkey
  is_used : Bool
  used_by : Option Pubkey
  expires_at : Int
deriving DecidableEq, Repr

/-- Modelled from the spec: the `CitizenIndex` account state
(src/programs/sortition/src/states/citizen_index.rs is not under src/; the
spec gives `governance_pool`, `citizens : ordered sequence of identifier`,
`count : u32`, matching the handler's accesses). -/
structure CitizenIndex where
  governance_pool : Pubkey
  citizens : List Pubkey
  count : Nat
deriving DecidableEq, Repr

/-- Modelled from the spec: the `Citizen` account state
(src/programs/sortition/src/states/citizen.rs is not under src/; the spec
gives name, pool reference, eligibility, participation, three demographic
fields and an initialization flag, matching the handler's writes). -/
structure Citizen where
  name : String
  governance_pool : Pubkey
  is_eligible : Bool
  last_participation : Int
  region : Nat
  age_group : Nat
  other_demographic : Nat
  is_initialized : Bool
deriving DecidableEq, Repr

/-- The error enum of the program
(src/programs/sortition/src/error.rs is not under src/; these six variants
are exactly the ones the handler and its account constraints raise, and the
spec lists exactly these six error kinds). -/
inductive GovernanceError where
  | InvalidInvite
  | InviteAlreadyUsed
  | InviteExpired
  | InvalidInput
  | InvalidDemographic
  | CitizenIndexFull
deriving DecidableEq, Repr

/-- The event emitted on success (lines 119-124 of use_invite.rs). -/
structure CitizenAddedToGovernance where
  governance_pool : Pubkey
  citizen : Pubkey
  token_amount : Nat
deriving DecidableEq, Repr

/-- Modelled from the spec: the two capacity constants,
`Citizen::MAX_NAME_LENGTH` and `CitizenIndex::MAX_CITIZENS_PER_INDEX`
(PAGE_SIZE), whose concrete values live in the missing states files; we
keep them abstract parameters of the embedding. -/
structure Params where
  MAX_NAME_LENGTH : Nat
  MAX_CITIZENS_PER_INDEX : Nat
deriving DecidableEq, Repr

/-- The accounts and environment values the Anchor runtime materializes for
one call of the instruction: the pool account (address and data), the
invite, the signer's address, the addressed citizen-index page, the
signer's token-account balance (u64, read-only), and the clock's
unix_timestamp. -/
structure UseInviteCtx where
  governance_pool_key : Pubkey
  governance_pool : GovernancePool
  invite : GovernanceInvite
  new_member_key : Pubkey
  citizen_index : CitizenIndex
  member_token_amount : Nat
  now : Int
deriving DecidableEq, Repr

/-- The in-memory state produced by a successful run: the four mutated /
created accounts plus the emitted event. -/
structure StepResult where
  governance_pool : GovernancePool
  invite : GovernanceInvite
  citizen_account : Citizen
  citizen_index : CitizenIndex
  event : CitizenAddedToGovernance
deriving DecidableEq, Repr

deriving instance DecidableEq for Except

/-- Lazy initialization of the citizen-index page (lines 84-89): if the
page's pool reference is still the default sentinel the page is treated as
newly allocated. -/
def lazyInit (poolKey : Pubkey) (ci : CitizenIndex) : CitizenIndex :=
  if ci.governance_pool = pubkeyDefault then
    { governance_pool := poolKey, citizens := [], count := 0 }
  else ci

/-- The citizen record written at lines 74-82. -/
def newCitizen (c : UseInviteCtx) (name : String) (region : Nat)
    (age_group : Nat) (other_demographic : Nat) : Citizen :=
  { name := name
    governance_pool := c.governance_pool_key
    is_eligible := true
    last_participation := 0
    region := region
    age_group := age_group
    other_demographic := other_demographic
    is_initialized := true }

/-- The index page after the append of lines 95-96, applied to the
lazily-initialized page of lines 84-89. -/
def indexAfterAppend (c : UseInviteCtx) : CitizenIndex :=
  let ci := lazyInit c.governance_pool_key c.citizen_index
  { ci with
    citizens := ci.citizens ++ [c.new_member_key]
    count := (ci.count + 1) % U32_MOD }

/-- The pool after lines 99-104: total_citizens is incremented, and
total_citizen_indices is incremented exactly when the new total is an
exact multiple of MAX_CITIZENS_PER_INDEX. -/
def poolAfterRedeem (p : Params) (c : UseInviteCtx) : GovernancePool :=
  let newTotal := (c.governance_pool.total_citizens + 1) % U32_MOD
  if newTotal % p.MAX_CITIZENS_PER_INDEX = 0 then
    { total_citizens := newTotal
      total_citizen_indices :=
        (c.governance_pool.total_citizen_indices + 1) % U32_MOD }
  else
    { total_citizens := newTotal
      total_citizen_indices := c.governance_pool.total_citizen_indices }

/-- The invite after lines 106-108: marked used by the new member. -/
def consumedInvite (c : UseInviteCtx) : GovernanceInvite :=
  { c.invite with is_used := true, used_by := some c.new_member_key }

/-- The event emitted at lines 110-114. -/
def emittedEvent (c : UseInviteCtx) : CitizenAddedToGovernance :=
  { governance_pool := c.governance_pool_key
    citizen := c.new_member_key
    token_amount := c.member_token_amount }

/-- The full in-memory result of the mutation block, lines 74-114. -/
def successResult (p : Params) (c : UseInviteCtx) (name : String)
    (region : Nat) (age_group : Nat) (other_demographic : Nat) :
    StepResult :=
  { governance_pool := poolAfterRedeem p c
    invite := consumedInvite c
    citizen_account := newCitizen c name region age_group other_demographic
    citizen_index := indexAfterAppend c
    event := emittedEvent c }

/-- The `use_governance_invite` instruction (use_invite.rs lines 9-117):
first the three Anchor account constraints on the invite (lines 15-21, in
order), then the handler body: input validation (lines 68-72), lazy index
initialization and the capacity check (lines 84-94), and the mutation
block (lines 74-114, `successResult`). Counter additions are u32 and
reduced mod 2^32. -/
def use_governance_invite (p : Params) (c : UseInviteCtx)
    (name : String) (region : Nat) (age_group : Nat)
    (other_demographic : Nat) : Except GovernanceError StepResult :=
  if c.invite.governance_pool = c.governance_pool_key then
    if c.invite.is_used then .error .InviteAlreadyUsed
    else
      if c.now ≤ c.invite.expires_at then
        if name.utf8ByteSize ≤ p.MAX_NAME_LENGTH then
          if region < 8 then
            if age_group < 5 then
              if other_demographic < 4 then
                if (lazyInit c.governance_pool_key c.citizen_index).citizens.length ≥
                    p.MAX_CITIZENS_PER_INDEX then
                  .error .CitizenIndexFull
                else
                  .ok (successResult p c name region age_group other_demographic)
              else .error .InvalidDemographic
            else .error .InvalidDemographic
          else .error .InvalidDemographic
        else .error .InvalidInput
      else .error .InviteExpired
  else .error .InvalidInvite

/-- The state the ledger commits: the three preexisting mutable accounts,
plus the citizen account and the event when they exist. -/
structure CommittedState where
  governance_pool : GovernancePool
  invite : GovernanceInvite
  citizen_index : CitizenIndex
  citizen_account : Option Citizen
  event : Option CitizenAddedToGovernance
deriving DecidableEq, Repr

/-- The state as it stands on entry to the transaction. -/
def entryState (c : UseInviteCtx) : CommittedState :=
  { governance_pool := c.governance_pool
    invite := c.invite
    citizen_index := c.citizen_index
    citizen_account := none
    event := none }

/-- All-or-nothing transaction semantics of the host ledger: on success
all mutations land, on error none do. -/
def commitState (c : UseInviteCtx)
    (r : Except GovernanceError StepResult) : CommittedState :=
  match r with
  | .ok res =>
      { governance_pool := res.governance_pool
        invite := res.invite
        citizen_index := res.citizen_index
        citizen_account := some res.citizen_account
        event := some res.event }
  | .error _ => entryState c

/-- The ceiling-division pool invariant claimed in the spec's data model. -/
def ceilInvariant (P : Nat) (gp : GovernancePool) : Prop :=
  gp.total_citizen_indices = (gp.total_citizens + P - 1) / P

/-- The floor-division pool invariant the code actually maintains:
total_citizen_indices counts the pages already filled. -/
def floorInvariant (P : Nat) (gp : GovernancePool) : Prop :=
  gp.total_citizen_indices = gp.total_citizens / P

instance (P : Nat) (gp : GovernancePool) : Decidable (ceilInvariant P gp) :=
  inferInstanceAs (Decidable (_ = _))

instance (P : Nat) (gp : GovernancePool) : Decidable (floorInvariant P gp) :=
  inferInstanceAs (Decidable (_ = _))

/-- A concrete context used in several sanity examples and witnesses: a
fresh pool with a matching, unused, unexpired invite and a not-yet
initialized index page. -/
def freshCtx : UseInviteCtx :=
  { governance_pool_key := 1
    governance_pool := { total_citizens := 0, total_citizen_indices := 0 }
    invite :=
      { governance_pool := 1
        is_used := false
        used_by := none
        expires_at := 100 }
    new_member_key := 2
    citizen_index := { governance_pool := 0, citizens := [], count := 0 }
    member_token_amount := 5
    now := 50 }

/-- Concrete parameters used in examples and witnesses. -/
def demoParams : Params :=
  { MAX_NAME_LENGTH := 32, MAX_CITIZENS_PER_INDEX := 10 }

/-- A context whose invite belongs to a different pool. -/
def mismatchCtx : UseInviteCtx :=
  { freshCtx with invite := { freshCtx.invite with governance_pool := 99 } }

/-- A context whose invite has already been consumed. -/
def usedCtx : UseInviteCtx :=
  { freshCtx with invite := { freshCtx.invite with is_used := true } }

/-- A context one redemption short of filling the first index page (with
demoParams, PAGE_SIZE = 10). -/
def boundaryCtx : UseInviteCtx :=
  { freshCtx with
    governance_pool := { total_citizens := 9, total_citizen_indices := 0 }
    citizen_index :=
      { governance_pool := 1
        citizens := [10, 11, 12, 13, 14, 15, 16, 17, 18]
        count := 9 } }

/-- A context whose pool counter sits at the largest u32 value. -/
def maxCtx : UseInviteCtx :=
  { freshCtx with
    governance_pool :=
      { total_citizens := U32_MOD - 1, total_citizen_indices := 0 } }

/-- A run in which every check passes returns the mutation block's
output. -/
theorem use_invite_ok_of (p : Params) (c : UseInviteCtx) (name : String)
    (region : Nat) (age_group : Nat) (other_demographic : Nat)
    (h1 : c.invite.governance_pool = c.governance_pool_key)
    (h2 : c.invite.is_used = false)
    (h3 : c.now ≤ c.invite.expires_at)
    (h4 : name.utf8ByteSize ≤ p.MAX_NAME_LENGTH)
    (h5 : region < 8) (h6 : age_group < 5) (h7 : other_demographic < 4)
    (h8 : (lazyInit c.governance_pool_key c.citizen_index).citizens.length <
      p.MAX_CITIZENS_PER_INDEX) :
    use_governance_invite p c name region age_group other_demographic =
      .ok (successResult p c name region age_group other_demographic) := by
  unfold use_governance_invite
  rw [if_pos h1, if_neg (by simp [h2]), if_pos h3, if_pos h4, if_pos h5,
    if_pos h6, if_pos h7, if_neg (not_le.mpr h8)]

/-- Conversely, a successful run implies every check passed and the result
is the mutation block's output. -/
theorem conditions_of_use_invite_ok (p : Params) (c : UseInviteCtx)
    (name : String) (region : Nat) (age_group : Nat)
    (other_demographic : Nat) (res : StepResult)
    (h : use_governance_invite p c name region age_group other_demographic =
      .ok res) :
    c.invite.governance_pool = c.governance_pool_key ∧
      c.invite.is_used = false ∧
      c.now ≤ c.invite.expires_at ∧
      name.utf8ByteSize ≤ p.MAX_NAME_LENGTH ∧
      region < 8 ∧ age_group < 5 ∧ other_demographic < 4 ∧
      (lazyInit c.governance_pool_key c.citizen_index).citizens.length <
        p.MAX_CITIZENS_PER_INDEX ∧
      res = successResult p c name region age_group other_demographic := by
  unfold use_governance_invite at h
  split_ifs at h with h1 h2 h3 h4 h5 h6 h7 h8
  exact ⟨h1, by simpa using h2, h3, h4, h5, h6, h7, lt_of_not_ge h8,
    (Except.ok.inj h).symm⟩

/-- Both branches of the page-boundary check store the same incremented
total. -/
theorem poolAfterRedeem_total (p : Params) (c : UseInviteCtx) :
    (poolAfterRedeem p c).total_citizens =
      (c.governance_pool.total_citizens + 1) % U32_MOD := by
  simp only [poolAfterRedeem]
  split_ifs <;> rfl

/-- The page counter after redemption, as a function of the new total. -/
theorem poolAfterRedeem_indices (p : Params) (c : UseInviteCtx) :
    (poolAfterRedeem p c).total_citizen_indices =
      if (c.governance_pool.total_citizens + 1) % U32_MOD %
          p.MAX_CITIZENS_PER_INDEX = 0 then
        (c.governance_pool.total_citizen_indices + 1) % U32_MOD
      else c.governance_pool.total_citizen_indices := by
  simp only [poolAfterRedeem]
  split_ifs <;> rfl

/-- Lazy initialization never raises the element counter. -/
theorem lazyInit_count_le (k : Pubkey) (ci : CitizenIndex) :
    (lazyInit k ci).count ≤ ci.count := by
  unfold lazyInit
  split_ifs <;> simp

/-- C2: whenever the instruction returns an error, the committed state is
exactly the entry state — the pool, invite, citizen index are unchanged
and no citizen record or event exists (all-or-nothing on every error path,
including CitizenIndexFull). -/
theorem error_leaves_state_unchanged (p : Params) (c : UseInviteCtx)
    (name : String) (region : Nat) (age_group : Nat)
    (other_demographic : Nat) (e : GovernanceError)
    (h : use_governance_invite p c name region age_group other_demographic =
      .error e) :
    commitState c
        (use_governance_invite p c name region age_group other_demographic) =
      entryState c := by
  rw [h]
  rfl

/-- Witness for C2 at a concrete input: a consumed invite errors and the
committed state is the entry state. -/
theorem error_leaves_state_unchanged_witness :
    commitState usedCtx (use_governance_invite demoParams usedCtx "ab" 1 1 1) =
      entryState usedCtx :=
  error_leaves_state_unchanged demoParams usedCtx "ab" 1 1 1
    .InviteAlreadyUsed rfl

/-- C5: each invite precondition maps to its own error — a foreign pool to
InvalidInvite, a consumed invite to InviteAlreadyUsed, an expired invite
to InviteExpired (the checks run in that order) — and a successful run
implies all three invite conditions held. -/
theorem invite_precondition_errors (p : Params) (c : UseInviteCtx)
    (name : String) (region : Nat) (age_group : Nat)
    (other_demographic : Nat) :
    (¬ c.invite.governance_pool = c.governance_pool_key →
      use_governance_invite p c name region age_group other_demographic =
        .error .InvalidInvite) ∧
    (c.invite.governance_pool = c.governance_pool_key →
      c.invite.is_used = true →
      use_governance_invite p c name region age_group other_demographic =
        .error .InviteAlreadyUsed) ∧
    (c.invite.governance_pool = c.governance_pool_key →
      c.invite.is_used = false →
      c.invite.expires_at < c.now →
      use_governance_invite p c name region age_group other_demographic =
        .error .InviteExpired) ∧
    (∀ res,
      use_governance_invite p c name region age_group other_demographic =
        .ok res →
      c.invite.governance_pool = c.governance_pool_key ∧
        c.invite.is_used = false ∧ c.now ≤ c.invite.expires_at) := by
  refine ⟨?_, ?_, ?_, ?_⟩
  · intro h
    unfold use_governance_invite
    rw [if_neg h]
  · intro h1 h2
    unfold use_governance_invite
    rw [if_pos h1, if_pos h2]
  · intro h1 h2 h3
    unfold use_governance_invite
    rw [if_pos h1, if_neg (by simp [h2]), if_neg (not_le.mpr h3)]
  · intro res h
    obtain ⟨a1, a2, a3, _⟩ :=
      conditions_of_use_invite_ok p c name region age_group
        other_demographic res h
    exact ⟨a1, a2, a3⟩

/-- Witness for C5 at a concrete input: an invite recorded for a foreign
pool is rejected with InvalidInvite. -/
theorem invite_precondition_errors_witness :
    use_governance_invite demoParams mismatchCtx "ab" 1 1 1 =
      .error .InvalidInvite :=
  (invite_precondition_errors demoParams mismatchCtx "ab" 1 1 1).1
    (by decide)

/-- C6: once the invite constraints pass, an over-long name is rejected
with InvalidInput and an out-of-range demographic (region ≥ 8,
age_group ≥ 5 or other_demographic ≥ 4) with InvalidDemographic; and for
in-range inputs neither of these two errors is ever returned, regardless
of the rest of the state. -/
theorem input_validation_errors (p : Params) (c : UseInviteCtx)
    (name : String) (region : Nat) (age_group : Nat)
    (other_demographic : Nat) :
    (c.invite.governance_pool = c.governance_pool_key →
      c.invite.is_used = false →
      c.now ≤ c.invite.expires_at →
      (¬ name.utf8ByteSize ≤ p.MAX_NAME_LENGTH →
        use_governance_invite p c name region age_group other_demographic =
          .error .InvalidInput) ∧
      (name.utf8ByteSize ≤ p.MAX_NAME_LENGTH →
        ¬ (region < 8 ∧ age_group < 5 ∧ other_demographic < 4) →
        use_governance_invite p c name region age_group other_demographic =
          .error .InvalidDemographic)) ∧
    (name.utf8ByteSize ≤ p.MAX_NAME_LENGTH → region < 8 → age_group < 5 →
      other_demographic < 4 →
      use_governance_invite p c name region age_group other_demographic ≠
          .error .InvalidInput ∧
        use_governance_invite p c name region age_group other_demographic ≠
          .error .InvalidDemographic) := by
  constructor
  · intro h1 h2 h3
    constructor
    · intro h4
      unfold use_governance_invite
      rw [if_pos h1, if_neg (by simp [h2]), if_pos h3, if_neg h4]
    · intro h4 hbad
      unfold use_governance_invite
      rw [if_pos h1, if_neg (by simp [h2]), if_pos h3, if_pos h4]
      by_cases hr : region < 8
      · rw [if_pos hr]
        by_cases ha : age_group < 5
        · rw [if_pos ha, if_neg (fun ho => hbad ⟨hr, ha, ho⟩)]
        · rw [if_neg ha]
      · rw [if_neg hr]
  · intro hn hr ha ho
    unfold use_governance_invite
    split_ifs <;> simp_all

/-- Witness for C6 at a concrete input: region 9 is rejected with
InvalidDemographic. -/
theorem input_validation_errors_witness :
    use_governance_invite demoParams freshCtx "ab" 9 1 1 =
      .error .InvalidDemographic :=
  ((input_validation_errors demoParams freshCtx "ab" 9 1 1).1
      (by decide) (by decide) (by decide)).2 (by decide)
    (fun hcon => by exact absurd hcon.1 (by decide))

/-- C8: the invite is consumed exactly on success — every successful run
leaves is_used = true and used_by = some (new member), and on every error
path the committed invite equals the entry invite. -/
theorem invite_consumed_iff_success (p : Params) (c : UseInviteCtx)
    (name : String) (region : Nat) (age_group : Nat)
    (other_demographic : Nat) :
    (∀ res,
      use_governance_invite p c name region age_group other_demographic =
        .ok res →
      res.invite.is_used = true ∧
        res.invite.used_by = some c.new_member_key) ∧
    (∀ e,
      use_governance_invite p c name region age_group other_demographic =
        .error e →
      (commitState c
          (use_governance_invite p c name region age_group
            other_demographic)).invite = c.invite) := by
  constructor
  · intro res h
    obtain ⟨_, _, _, _, _, _, _, _, hres⟩ :=
      conditions_of_use_invite_ok p c name region age_group
        other_demographic res h
    subst hres
    exact ⟨rfl, rfl⟩
  · intro e h
    rw [h]
    rfl

/-- Witness for C8 at a concrete input: the successful fresh redemption
marks the invite used by member 2. -/
theorem invite_consumed_iff_success_witness :
    (successResult demoParams freshCtx "ab" 1 1 1).invite.is_used = true ∧
      (successResult demoParams freshCtx "ab" 1 1 1).invite.used_by =
        some freshCtx.new_member_key :=
  (invite_consumed_iff_success demoParams freshCtx "ab" 1 1 1).1
    (successResult demoParams freshCtx "ab" 1 1 1) rfl

/-- C9: exactly on success one CitizenAddedToGovernance event is emitted,
carrying the pool's key, the new member's key as the citizen, and the
member's token balance verbatim; no error path emits an event. -/
theorem event_emitted_on_success_only (p : Params) (c : UseInviteCtx)
    (name : String) (region : Nat) (age_group : Nat)
    (other_demographic : Nat) :
    (∀ res,
      use_governance_invite p c name region age_group other_demographic =
        .ok res →
      res.event =
          { governance_pool := c.governance_pool_key
            citizen := c.new_member_key
            token_amount := c.member_token_amount } ∧
        (commitState c
            (use_governance_invite p c name region age_group
              other_demographic)).event = some res.event) ∧
    (∀ e,
      use_governance_invite p c name region age_group other_demographic =
        .error e →
      (commitState c
          (use_governance_invite p c name region age_group
            other_demographic)).event = none) := by
  constructor
  · intro res h
    obtain ⟨_, _, _, _, _, _, _, _, hres⟩ :=
      conditions_of_use_invite_ok p c name region age_group
        other_demographic res h
    subst hres
    exact ⟨rfl, by rw [h]; rfl⟩
  · intro e h
    rw [h]
    rfl

/-- Witness for C9 at a concrete input: the fresh redemption emits the
event with pool 1, citizen 2 and balance 5. -/
theorem event_emitted_on_success_only_witness :
    (successResult demoParams freshCtx "ab" 1 1 1).event =
      { governance_pool := freshCtx.governance_pool_key
        citizen := freshCtx.new_member_key
        token_amount := freshCtx.member_token_amount } :=
  ((event_emitted_on_success_only demoParams freshCtx "ab" 1 1 1).1
    (successResult demoParams freshCtx "ab" 1 1 1) rfl).1

/-- C4: the index-page step of a redemption whose invite and input checks
pass: a page whose pool reference is the sentinel is initialized to (pool
key, empty list, count 0); the (possibly initialized) page at capacity
fails with CitizenIndexFull; otherwise the new member's key is appended at
the end — earlier entries unchanged — and count is incremented by 1 (as a
u32). -/
theorem index_page_step_spec (p : Params) (c : UseInviteCtx) (name : String)
    (region : Nat) (age_group : Nat) (other_demographic : Nat)
    (h1 : c.invite.governance_pool = c.governance_pool_key)
    (h2 : c.invite.is_used = false)
    (h3 : c.now ≤ c.invite.expires_at)
    (h4 : name.utf8ByteSize ≤ p.MAX_NAME_LENGTH)
    (h5 : region < 8) (h6 : age_group < 5) (h7 : other_demographic < 4) :
    (c.citizen_index.governance_pool = pubkeyDefault →
      lazyInit c.governance_pool_key c.citizen_index =
        { governance_pool := c.governance_pool_key
          citizens := []
          count := 0 }) ∧
    ((lazyInit c.governance_pool_key c.citizen_index).citizens.length ≥
        p.MAX_CITIZENS_PER_INDEX →
      use_governance_invite p c name region age_group other_demographic =
        .error .CitizenIndexFull) ∧
    (∀ res,
      use_governance_invite p c name region age_group other_demographic =
        .ok res →
      res.citizen_index.citizens =
          (lazyInit c.governance_pool_key c.citizen_index).citizens ++
            [c.new_member_key] ∧
        res.citizen_index.count =
          ((lazyInit c.governance_pool_key c.citizen_index).count + 1) %
            U32_MOD ∧
        ((lazyInit c.governance_pool_key c.citizen_index).count + 1 <
            U32_MOD →
          res.citizen_index.count =
            (lazyInit c.governance_pool_key c.citizen_index).count + 1) ∧
        res.citizen_index.governance_pool =
          (lazyInit c.governance_pool_key c.citizen_index).governance_pool) := by
  refine ⟨?_, ?_, ?_⟩
  · intro hs
    simp [lazyInit, hs]
  · intro hfull
    unfold use_governance_invite
    rw [if_pos h1, if_neg (by simp [h2]), if_pos h3, if_pos h4, if_pos h5,
      if_pos h6, if_pos h7, if_pos hfull]
  · intro res h
    obtain ⟨_, _, _, _, _, _, _, _, hres⟩ :=
      conditions_of_use_invite_ok p c name region age_group
        other_demographic res h
    subst hres
    refine ⟨rfl, rfl, ?_, rfl⟩
    intro hcnt
    simp only [successResult, indexAfterAppend]
    exact Nat.mod_eq_of_lt hcnt

/-- Witness for C4 at a concrete input: the fresh page is initialized and
the member appended. -/
theorem index_page_step_spec_witness :
    (successResult demoParams freshCtx "ab" 1 1 1).citizen_index.citizens =
        (lazyInit freshCtx.governance_pool_key
            freshCtx.citizen_index).citizens ++ [freshCtx.new_member_key] ∧
      (successResult demoParams freshCtx "ab" 1 1 1).citizen_index.count =
        (lazyInit freshCtx.governance_pool_key
            freshCtx.citizen_index).count + 1 := by
  have h := (index_page_step_spec demoParams freshCtx "ab" 1 1 1
    (by decide) (by decide) (by decide) (by decide) (by decide) (by decide)
    (by decide)).2.2 (successResult demoParams freshCtx "ab" 1 1 1) rfl
  exact ⟨h.1, h.2.2.1 (by decide)⟩

/-- C7: every successful redemption produces exactly one new citizen
record, built from the validated inputs with the pool's key,
is_eligible = true, last_participation = 0, is_initialized = true, and the
pool's total_citizens grows by exactly 1 (given it does not sit at the
u32 maximum). -/
theorem success_creates_citizen (p : Params) (c : UseInviteCtx)
    (name : String) (region : Nat) (age_group : Nat)
    (other_demographic : Nat) (res : StepResult)
    (htc : c.governance_pool.total_citizens + 1 < U32_MOD)
    (h : use_governance_invite p c name region age_group other_demographic =
      .ok res) :
    res.citizen_account.name = name ∧
      res.citizen_account.region = region ∧
      res.citizen_account.age_group = age_group ∧
      res.citizen_account.other_demographic = other_demographic ∧
      res.citizen_account.governance_pool = c.governance_pool_key ∧
      res.citizen_account.is_eligible = true ∧
      res.citizen_account.last_participation = 0 ∧
      res.citizen_account.is_initialized = true ∧
      res.governance_pool.total_citizens =
        c.governance_pool.total_citizens + 1 := by
  obtain ⟨_, _, _, _, _, _, _, _, hres⟩ :=
    conditions_of_use_invite_ok p c name region age_group
      other_demographic res h
  subst hres
  refine ⟨rfl, rfl, rfl, rfl, rfl, rfl, rfl, rfl, ?_⟩
  show (poolAfterRedeem p c).total_citizens = _
  rw [poolAfterRedeem_total, Nat.mod_eq_of_lt htc]

/-- Witness for C7 at a concrete input: the fresh redemption stores the
given profile and takes the pool from 0 to 1 citizen. -/
theorem success_creates_citizen_witness :
    (successResult demoParams freshCtx "ab" 1 1 1).citizen_account.name =
        "ab" ∧
      (successResult demoParams freshCtx
          "ab" 1 1 1).governance_pool.total_citizens =
        freshCtx.governance_pool.total_citizens + 1 := by
  have h := success_creates_citizen demoParams freshCtx "ab" 1 1 1
    (successResult demoParams freshCtx "ab" 1 1 1) (by decide) rfl
  exact ⟨h.1, h.2.2.2.2.2.2.2.2⟩

/-- C10: the two counter bumps are plain u32 additions with no guard: away
from the u32 maximum they are exact increments; the error enum has no
overflow variant, so every error is one of the six precondition errors;
and a pool counter sitting at the u32 maximum wraps to 0 on a successful
redemption instead of producing an error. -/
theorem counter_additions_unchecked (p : Params) (c : UseInviteCtx)
    (name : String) (region : Nat) (age_group : Nat)
    (other_demographic : Nat) :
    (∀ res,
      use_governance_invite p c name region age_group other_demographic =
        .ok res →
      (c.citizen_index.count + 1 < U32_MOD →
        res.citizen_index.count =
          (lazyInit c.governance_pool_key c.citizen_index).count + 1) ∧
      (c.governance_pool.total_citizens + 1 < U32_MOD →
        res.governance_pool.total_citizens =
          c.governance_pool.total_citizens + 1)) ∧
    (∀ e,
      use_governance_invite p c name region age_group other_demographic =
        .error e →
      e = .InvalidInvite ∨ e = .InviteAlreadyUsed ∨ e = .InviteExpired ∨
        e = .InvalidInput ∨ e = .InvalidDemographic ∨
        e = .CitizenIndexFull) ∧
    (∀ res,
      c.governance_pool.total_citizens = U32_MOD - 1 →
      use_governance_invite p c name region age_group other_demographic =
        .ok res →
      res.governance_pool.total_citizens = 0) := by
  refine ⟨?_, ?_, ?_⟩
  · intro res h
    obtain ⟨_, _, _, _, _, _, _, _, hres⟩ :=
      conditions_of_use_invite_ok p c name region age_group
        other_demographic res h
    subst hres
    constructor
    · intro hcnt
      have hle := lazyInit_count_le c.governance_pool_key c.citizen_index
      show (indexAfterAppend c).count = _
      simp only [indexAfterAppend]
      exact Nat.mod_eq_of_lt (by omega)
    · intro htc
      show (poolAfterRedeem p c).total_citizens = _
      rw [poolAfterRedeem_total, Nat.mod_eq_of_lt htc]
  · intro e _
    cases e <;> simp
  · intro res htc h
    obtain ⟨_, _, _, _, _, _, _, _, hres⟩ :=
      conditions_of_use_invite_ok p c name region age_group
        other_demographic res h
    subst hres
    show (poolAfterRedeem p c).total_citizens = 0
    rw [poolAfterRedeem_total, htc]
    norm_num [U32_MOD]

/-- Witness for C10 at a concrete input: with the pool counter at
2^32 - 1 the redemption still succeeds and the counter wraps to 0. -/
theorem counter_additions_unchecked_witness :
    use_governance_invite demoParams maxCtx "ab" 1 1 1 =
        .ok (successResult demoParams maxCtx "ab" 1 1 1) ∧
      (successResult demoParams maxCtx
          "ab" 1 1 1).governance_pool.total_citizens = 0 :=
  ⟨rfl,
    (counter_additions_unchecked demoParams maxCtx "ab" 1 1 1).2.2
      (successResult demoParams maxCtx "ab" 1 1 1) (by decide) rfl⟩

/-- C3: on a successful redemption the page counter is bumped by exactly 1
precisely when the stored post-increment total_citizens is an exact
multiple of MAX_CITIZENS_PER_INDEX, and is unchanged otherwise. -/
theorem indices_increment_iff_boundary (p : Params) (c : UseInviteCtx)
    (name : String) (region : Nat) (age_group : Nat)
    (other_demographic : Nat) (res : StepResult)
    (hidx : c.governance_pool.total_citizen_indices + 1 < U32_MOD)
    (h : use_governance_invite p c name region age_group other_demographic =
      .ok res) :
    (res.governance_pool.total_citizens % p.MAX_CITIZENS_PER_INDEX = 0 →
      res.governance_pool.total_citizen_indices =
        c.governance_pool.total_citizen_indices + 1) ∧
    (res.governance_pool.total_citizens % p.MAX_CITIZENS_PER_INDEX ≠ 0 →
      res.governance_pool.total_citizen_indices =
        c.governance_pool.total_citizen_indices) := by
  obtain ⟨_, _, _, _, _, _, _, _, hres⟩ :=
    conditions_of_use_invite_ok p c name region age_group
      other_demographic res h
  subst hres
  simp only [successResult] at *
  rw [poolAfterRedeem_total, poolAfterRedeem_indices]
  constructor
  · intro hz
    rw [if_pos hz]
    exact Nat.mod_eq_of_lt hidx
  · intro hz
    rw [if_neg hz]

/-- Witness for C3 at a concrete input: the tenth redemption (PAGE_SIZE =
10) takes the page counter from 0 to 1. -/
theorem indices_increment_iff_boundary_witness :
    (successResult demoParams boundaryCtx
        "ab" 1 1 1).governance_pool.total_citizen_indices =
      boundaryCtx.governance_pool.total_citizen_indices + 1 :=
  (indices_increment_iff_boundary demoParams boundaryCtx "ab" 1 1 1
    (successResult demoParams boundaryCtx "ab" 1 1 1) (by decide) rfl).1
    (by decide)

/-- C1 counterexample: the ceiling-division invariant claimed in the spec
is not preserved by a committed redemption — the very first redemption of
a fresh pool satisfies it on entry (0 pages, 0 citizens) and violates it
afterwards (0 pages, 1 citizen, while ceil(1 / 10) = 1). -/
theorem ceil_invariant_counterexample :
    ceilInvariant demoParams.MAX_CITIZENS_PER_INDEX
        freshCtx.governance_pool ∧
      use_governance_invite demoParams freshCtx "ab" 1 1 1 =
        .ok (successResult demoParams freshCtx "ab" 1 1 1) ∧
      ¬ ceilInvariant demoParams.MAX_CITIZENS_PER_INDEX
          (successResult demoParams freshCtx "ab" 1 1 1).governance_pool :=
  ⟨by decide, rfl, by decide⟩

/-- C1 amended: the invariant the code preserves over every committed
redemption is total_citizen_indices = floor(total_citizens / PAGE_SIZE) —
the page counter tracks filled pages, not allocated ones. -/
theorem floor_invariant_preserved (p : Params) (c : UseInviteCtx)
    (name : String) (region : Nat) (age_group : Nat)
    (other_demographic : Nat) (res : StepResult)
    (htc : c.governance_pool.total_citizens + 1 < U32_MOD)
    (hinv : floorInvariant p.MAX_CITIZENS_PER_INDEX c.governance_pool)
    (h : use_governance_invite p c name region age_group other_demographic =
      .ok res) :
    floorInvariant p.MAX_CITIZENS_PER_INDEX res.governance_pool := by
  obtain ⟨_, _, _, _, _, _, _, _, hres⟩ :=
    conditions_of_use_invite_ok p c name region age_group
      other_demographic res h
  subst hres
  unfold floorInvariant at hinv ⊢
  simp only [successResult]
  rw [poolAfterRedeem_total, poolAfterRedeem_indices,
    Nat.mod_eq_of_lt htc]
  by_cases hd : (c.governance_pool.total_citizens + 1) %
      p.MAX_CITIZENS_PER_INDEX = 0
  · rw [if_pos hd, hinv,
      Nat.succ_div_of_dvd (Nat.dvd_of_mod_eq_zero hd)]
    refine Nat.mod_eq_of_lt ?_
    have hle := Nat.div_le_self c.governance_pool.total_citizens
      p.MAX_CITIZENS_PER_INDEX
    omega
  · rw [if_neg hd, hinv,
      Nat.succ_div_of_not_dvd (fun hdvd => hd (Nat.mod_eq_zero_of_dvd hdvd))]

/-- Witness for the amended C1 at a concrete input: the tenth redemption
keeps the floor invariant (1 page, 10 citizens). -/
theorem floor_invariant_preserved_witness :
    floorInvariant demoParams.MAX_CITIZENS_PER_INDEX
      (successResult demoParams boundaryCtx "ab" 1 1 1).governance_pool :=
  floor_invariant_preserved demoParams boundaryCtx "ab" 1 1 1
    (successResult demoParams boundaryCtx "ab" 1 1 1) (by decide)
    (by decide) rfl

end ArkProtocol
